import Mathlib

/-!
Shallow embedding of the FFI boundary layer of `go-cosmwasm`
(`src/lib.rs` and `src/iterator.rs`), together with proofs of the
frozen claims about it.

The two source files under verification are `lib.rs` (exported entry
points) and `iterator.rs` (the `GoIter` adapter).  Repository modules
that they use but whose sources are not available (`memory.rs`,
`error.rs`, `gas_meter.rs`) are modelled from the specification, and
external collaborators (the `cosmwasm_sgx_vm` crate, the foreign
callbacks) are modelled as oracle parameters: each run of an entry
point is relative to an environment that fixes the outcome of every
external call it makes.
-/

namespace GoCosmwasm

/-- Modelled from the spec: `Buffer` (`memory.rs`, not under `src/`) is a
length-prefixed byte-range descriptor that is either a well-defined
empty/null sentinel or a valid byte range; `read` on the sentinel yields
"no data" rather than a fault. -/
inductive Buffer where
  | sentinel : Buffer
  | bytes (data : List Nat) : Buffer
deriving DecidableEq, Repr

/-- Modelled from the spec: `Buffer::read` borrows the bytes, returning
absent for the empty/null sentinel. -/
def Buffer.read : Buffer → Option (List Nat)
  | .sentinel => none
  | .bytes d => some d

/-- Modelled from the spec: `Buffer::default()` is the empty/null sentinel. -/
def Buffer.default : Buffer := .sentinel

/-- Modelled from the spec: `Buffer::from_vec` wraps a native byte vector
into a native-owned buffer. -/
def Buffer.from_vec (v : List Nat) : Buffer := .bytes v

/-- A native computation that either completes with a value or raises a
native panic (unwinds).  `panicked` marks the unwind itself: a function
whose model returns `panicked` lets the panic escape it. -/
inductive PResult (α : Type) where
  | ok (val : α) : PResult α
  | panicked : PResult α
deriving DecidableEq, Repr

/-- Modelled from the spec: the error type of `error.rs` (not under
`src/`): named absent-argument errors, UTF-8 decoding errors, checksum
length errors, VM errors carrying a message, and the generic panic
error produced at an unwind barrier. -/
inductive Error where
  | empty_arg (name : String) : Error
  | utf8_err : Error
  | invalid_checksum (len : Nat) : Error
  | vm_err (msg : String) : Error
  | panic : Error
deriving DecidableEq, Repr

/-- Modelled from the spec: the human-readable message written to the
error output buffer for each error; the panic error carries a generic
non-empty message. -/
def Error.msg : Error → String
  | .empty_arg name => "empty " ++ name ++ " argument"
  | .utf8_err => "invalid utf-8 encoding"
  | .invalid_checksum _ => "checksum not of expected length"
  | .vm_err m => m
  | .panic => "caught panic"

/-! ## Iterator adapter (`iterator.rs`) -/

/-- What one invocation of the foreign `next_db` callback does: the raw
`i32` return code it yields and the values it stores into the three
output slots (key buffer, value buffer, per-step gas used). -/
structure StepReply where
  code : Int
  key : Buffer
  value : Buffer
  used_gas : Nat
deriving DecidableEq, Repr

/-- Modelled from the spec: the error type (`FfiError` of the VM crate)
an iterator step can yield: a plain message (`FfiError::other`) or a
callback failure whose message was overwritten by `set_message`. -/
inductive FfiError where
  | other (msg : String) : FfiError
  | go_error (msg : String) : FfiError
deriving DecidableEq, Repr

/-- The message carried by an iterator-step error. -/
def FfiError.message : FfiError → String
  | .other m => m
  | .go_error m => m

/-- One yielded iterator item: `((key, value), gas used by this step)`. -/
def IterItem : Type := (List Nat × List Nat) × Nat

/-- `GoIter` from `iterator.rs`: the vtable either has `next_db` bound or
not.  A bound callback is modelled as the stream of replies the foreign
side would produce, indexed by how many times it has been invoked; the
opaque `state`/`gas_meter` pointers are absorbed into that oracle. -/
structure GoIter where
  vtable : Option (Nat → StepReply)

/-- `GoIter::default()`: null state, null gas meter, vtable with no
`next_db` bound.  Plain construction — it runs nothing. -/
def GoIter.default : GoIter := ⟨none⟩

/-- `GoIter::next` from `iterator.rs`, one pull of the adapter.  Returns
the yielded element (`none` is Rust's `None`: natural end of sequence)
and the successor iterator (the callback stream advanced by one).
Mirrors the source order: unset vtable check, callback invocation, raw
code conversion with `set_message` annotation on failure, then key
read (absent key = natural end), then value read (absent value with a
present key = protocol-violation error). -/
def GoIter.next (it : GoIter) : Option (Except FfiError IterItem) × GoIter :=
  match it.vtable with
  | none => (some (.error (FfiError.other "iterator vtable not set")), it)
  | some f =>
    let r := f 0
    let it' : GoIter := ⟨some fun i => f (i + 1)⟩
    if r.code ≠ 0 then
      (some (.error (FfiError.go_error "Failed to fetch next item from iterator")), it')
    else
      match r.key.read with
      | some key =>
        match r.value.read with
        | some value => (some (.ok ((key, value), r.used_gas)), it')
        | none =>
          (some (.error (FfiError.other
            "Failed to read value while reading the next key in the db")), it')
      | none => (none, it')

/-- Pull the adapter `n` times, collecting each step's yield. -/
def GoIter.pulls : GoIter → Nat → List (Option (Except FfiError IterItem))
  | _, 0 => []
  | it, n + 1 => it.next.1 :: it.next.2.pulls n

theorem GoIter.next_good (f : Nat → StepReply) (k v : List Nat) (g : Nat)
    (h : f 0 = ⟨0, .bytes k, .bytes v, g⟩) :
    GoIter.next ⟨some f⟩ = (some (.ok ((k, v), g)), ⟨some fun i => f (i + 1)⟩) := by
  simp [GoIter.next, h, Buffer.read]

theorem GoIter.next_end (f : Nat → StepReply) (b : Buffer) (g : Nat)
    (h : f 0 = ⟨0, .sentinel, b, g⟩) :
    GoIter.next ⟨some f⟩ = (none, ⟨some fun i => f (i + 1)⟩) := by
  simp [GoIter.next, h, Buffer.read]

/-- The callback-reply stream for a run of `N` successful present-key,
present-value steps (given as `(key, value, gas)` triples) followed by
successful absent-key steps forever after. -/
def stepsFun (steps : List (List Nat × List Nat × Nat)) : Nat → StepReply :=
  fun i =>
    match steps.get? i with
    | some (k, v, g) => ⟨0, Buffer.bytes k, Buffer.bytes v, g⟩
    | none => ⟨0, Buffer.sentinel, Buffer.sentinel, 0⟩

theorem stepsFun_shift (x : List Nat × List Nat × Nat)
    (steps : List (List Nat × List Nat × Nat)) :
    (fun i => stepsFun (x :: steps) (i + 1)) = stepsFun steps := by
  funext i
  simp [stepsFun]

/-! ## Entry-point infrastructure (`lib.rs`) -/

/-- `DATA_DIR_ARG` from `lib.rs`. -/
def DATA_DIR_ARG : String := "data_dir"
/-- `FEATURES_ARG` from `lib.rs`. -/
def FEATURES_ARG : String := "supported_features"
/-- `CACHE_ARG` from `lib.rs`. -/
def CACHE_ARG : String := "cache"
/-- `WASM_ARG` from `lib.rs`. -/
def WASM_ARG : String := "wasm"
/-- `CODE_ID_ARG` from `lib.rs`. -/
def CODE_ID_ARG : String := "code_id"
/-- `MSG_ARG` from `lib.rs`. -/
def MSG_ARG : String := "msg"
/-- `PARAMS_ARG` from `lib.rs`. -/
def PARAMS_ARG : String := "params"
/-- `GAS_USED_ARG` from `lib.rs`. -/
def GAS_USED_ARG : String := "gas_used"

/-- The fixed byte length of a `Checksum` (a 32-byte content hash in the
VM crate). -/
def checksumLen : Nat := 32

/-- Modelled from the spec: the `try_into` conversion of a byte slice to
a fixed-length `Checksum` fails with a reportable error when the length
differs from the fixed expected length. -/
def toChecksum (bs : List Nat) : Except Error (List Nat) :=
  if bs.length = checksumLen then .ok bs else .error (.invalid_checksum bs.length)

/-- Is `b` a UTF-8 continuation byte (`0x80..=0xBF`)? -/
def isCont (b : Nat) : Bool := 0x80 ≤ b && b ≤ 0xBF

/-- Modelled from the spec: UTF-8 validity of a byte sequence, the check
performed by `from_utf8` (standard library); text arguments must be
valid UTF-8 and invalid encoding is a distinct reportable error. -/
def validUtf8 : List Nat → Bool
  | [] => true
  | b :: rest =>
    if b ≤ 0x7F then validUtf8 rest
    else if 0xC2 ≤ b && b ≤ 0xDF then
      match rest with
      | c1 :: rest1 => isCont c1 && validUtf8 rest1
      | [] => false
    else if b = 0xE0 then
      match rest with
      | c1 :: c2 :: rest2 =>
        (0xA0 ≤ c1 && c1 ≤ 0xBF) && isCont c2 && validUtf8 rest2
      | _ => false
    else if (0xE1 ≤ b && b ≤ 0xEC) || b = 0xEE || b = 0xEF then
      match rest with
      | c1 :: c2 :: rest2 => isCont c1 && isCont c2 && validUtf8 rest2
      | _ => false
    else if b = 0xED then
      match rest with
      | c1 :: c2 :: rest2 =>
        (0x80 ≤ c1 && c1 ≤ 0x9F) && isCont c2 && validUtf8 rest2
      | _ => false
    else if b = 0xF0 then
      match rest with
      | c1 :: c2 :: c3 :: rest3 =>
        (0x90 ≤ c1 && c1 ≤ 0xBF) && isCont c2 && isCont c3 && validUtf8 rest3
      | _ => false
    else if 0xF1 ≤ b && b ≤ 0xF3 then
      match rest with
      | c1 :: c2 :: c3 :: rest3 =>
        isCont c1 && isCont c2 && isCont c3 && validUtf8 rest3
      | _ => false
    else if b = 0xF4 then
      match rest with
      | c1 :: c2 :: c3 :: rest3 =>
        (0x80 ≤ c1 && c1 ≤ 0x8F) && isCont c2 && isCont c3 && validUtf8 rest3
      | _ => false
    else false

/-- The unwind barrier of the entry points:
`catch_unwind(...).unwrap_or_else(|_| Err(Error::panic()))` — a panic in
the guarded computation is intercepted and becomes `Error::panic()`. -/
def catchUnwind {α : Type} (r : PResult (Except Error α)) : Except Error α :=
  match r with
  | .ok v => v
  | .panicked => .error .panic

/-- Modelled from the spec: `handle_c_error` (`error.rs`): on success
clear the error output and pass the data through; on failure write the
error's message to the error output and return an empty vector.  The
second component is the state of the error output after the call
(`none` = cleared). -/
def handle_c_error (r : Except Error (List Nat)) : List Nat × Option String :=
  match r with
  | .ok v => (v, none)
  | .error e => ([], some e.msg)

/-! ## `init_cache` / `release_cache` -/

/-- Oracle for `CosmCache::new` (external collaborator): it can succeed,
fail with a VM error message, or panic. -/
structure InitCacheEnv where
  cosm_cache_new : PResult (Except String Unit)

/-- `do_init_cache` from `lib.rs`: read and UTF-8-validate `data_dir`,
then read and UTF-8-validate `supported_features`, then construct the
cache and box it into an opaque pointer. -/
def do_init_cache (env : InitCacheEnv) (data_dir supported_features : Buffer)
    (cache_size : Nat) : PResult (Except Error Unit) :=
  match data_dir.read with
  | none => .ok (.error (.empty_arg DATA_DIR_ARG))
  | some dir =>
    if validUtf8 dir then
      match supported_features.read with
      | none => .ok (.error (.empty_arg FEATURES_ARG))
      | some feats =>
        if validUtf8 feats then
          match cache_size, env.cosm_cache_new with
          | _, .panicked => .panicked
          | _, .ok (.error m) => .ok (.error (.vm_err m))
          | _, .ok (.ok c) => .ok (.ok c)
        else .ok (.error .utf8_err)
    else .ok (.error .utf8_err)

/-- `init_cache` from `lib.rs`: run `do_init_cache` under the unwind
barrier; on success clear the error output and return the non-null
opaque handle (`some`), on failure set the error output and return null
(`none`). -/
def init_cache (env : InitCacheEnv) (data_dir supported_features : Buffer)
    (cache_size : Nat) : PResult (Option Unit × Option String) :=
  match catchUnwind (do_init_cache env data_dir supported_features cache_size) with
  | .ok t => .ok (some t, none)
  | .error e => .ok (none, some e.msg)

/-- `release_cache` from `lib.rs`, modelled by its deallocation count:
on a null handle nothing happens (count 0); on a non-null handle
`Box::from_raw` reclaims the box and dropping it frees the cache
exactly once (count 1). -/
def release_cache (cache : Option Unit) : Nat :=
  match cache with
  | none => 0
  | some _ => 1

/-! ## `create` / `get_code` -/

/-- Oracle for `cache.save_wasm` (external collaborator). -/
structure CreateEnv where
  save_wasm : PResult (Except String (List Nat))

/-- `do_create` from `lib.rs`: read the wasm buffer, then save it in the
cache, yielding the checksum. -/
def do_create (env : CreateEnv) (wasm : Buffer) :
    PResult (Except Error (List Nat)) :=
  match wasm.read with
  | none => .ok (.error (.empty_arg WASM_ARG))
  | some _ =>
    match env.save_wasm with
    | .panicked => .panicked
    | .ok (.error m) => .ok (.error (.vm_err m))
    | .ok (.ok checksum) => .ok (.ok checksum)

/-- `create` from `lib.rs`: null-check the cache handle, run `do_create`
under the unwind barrier, convert via `handle_c_error`. -/
def create (env : CreateEnv) (cache : Option Unit) (wasm : Buffer) :
    PResult (Buffer × Option String) :=
  let r :=
    match cache with
    | some _ => catchUnwind (do_create env wasm)
    | none => .error (.empty_arg CACHE_ARG)
  let (data, e) := handle_c_error r
  .ok (Buffer.from_vec data, e)

/-- Oracle for `cache.load_wasm` (external collaborator). -/
structure GetCodeEnv where
  load_wasm : PResult (Except String (List Nat))

/-- `do_get_code` from `lib.rs`: read the id buffer — the source reports
`CACHE_ARG` (not `CODE_ID_ARG`) when it is absent — convert it to a
checksum, then load the wasm from the cache. -/
def do_get_code (env : GetCodeEnv) (id : Buffer) :
    PResult (Except Error (List Nat)) :=
  match id.read with
  | none => .ok (.error (.empty_arg CACHE_ARG))
  | some idBytes =>
    match toChecksum idBytes with
    | .error e => .ok (.error e)
    | .ok _ =>
      match env.load_wasm with
      | .panicked => .panicked
      | .ok (.error m) => .ok (.error (.vm_err m))
      | .ok (.ok wasm) => .ok (.ok wasm)

/-- `get_code` from `lib.rs`: null-check the cache handle, run
`do_get_code` under the unwind barrier, convert via `handle_c_error`. -/
def get_code (env : GetCodeEnv) (cache : Option Unit) (id : Buffer) :
    PResult (Buffer × Option String) :=
  let r :=
    match cache with
    | some _ => catchUnwind (do_get_code env id)
    | none => .error (.empty_arg CACHE_ARG)
  let (data, e) := handle_c_error r
  .ok (Buffer.from_vec data, e)

/-! ## Contract calls: `instantiate` / `handle` / `migrate` / `query`

The four entry points and their `do_*` bodies are modelled with an
explicit event trace recording, in order, the observable effects of a
run: the raw VM call, each write to the caller-owned `gas_used` output,
and recycling the instance into the cache.  The function returns only
after every event in its trace has happened, so trace order is effect
order and everything in the trace precedes the propagation of the
result. -/

/-- Outcome of an external raw VM call (`call_init_raw` & co.): result
bytes, a VM error with a message, or a native panic raised inside the
call. -/
inductive VmCallOutcome where
  | ok (data : List Nat) : VmCallOutcome
  | err (msg : String) : VmCallOutcome
  | panics : VmCallOutcome
deriving DecidableEq, Repr

/-- Oracle for the external collaborators of one contract call: the
outcome of `cache.get_instance` (instance, VM error, or panic), the
outcome of the raw VM call, and the instance's remaining gas as read by
`get_gas_left()` after the VM call returned.  Gas values are `u64`; the
VM meters gas downward from the limit, so the remaining gas never
exceeds the limit. -/
structure VmEnv where
  get_instance : PResult (Except String Unit)
  call : VmCallOutcome
  gas_left : Nat

/-- An observable effect of a contract call. -/
inductive Event where
  | vm_call : Event
  | gas_write (v : Nat) : Event
  | recycle : Event
deriving DecidableEq, Repr

/-- The tail of every `do_init`/`do_handle`/`do_migrate`/`do_query` body
once all arguments are decoded: acquire the instance, invoke the raw VM
call, then — only checking the VM result after reporting gas usage and
recycling the instance — write `gas_limit - instance.get_gas_left()` to
`gas_used`, recycle, and propagate the VM result. -/
def vm_call_tail (env : VmEnv) (gas_limit : Nat) :
    PResult (Except Error (List Nat)) × List Event :=
  match env.get_instance with
  | .panicked => (.panicked, [])
  | .ok (.error m) => (.ok (.error (.vm_err m)), [])
  | .ok (.ok _) =>
    match env.call with
    | .panics => (.panicked, [.vm_call])
    | .ok data =>
      (.ok (.ok data),
        [.vm_call, .gas_write (gas_limit - env.gas_left), .recycle])
    | .err m =>
      (.ok (.error (.vm_err m)),
        [.vm_call, .gas_write (gas_limit - env.gas_left), .recycle])

/-- `do_init` from `lib.rs`: null-check `gas_used` first, then decode
`code_id` (with checksum length check), `params`, and `msg`, then run
the instance/VM-call/gas-report/recycle tail. -/
def do_init (env : VmEnv) (code_id params msg : Buffer) (gas_limit : Nat)
    (gas_used : Option Unit) : PResult (Except Error (List Nat)) × List Event :=
  match gas_used with
  | none => (.ok (.error (.empty_arg GAS_USED_ARG)), [])
  | some _ =>
    match code_id.read with
    | none => (.ok (.error (.empty_arg CODE_ID_ARG)), [])
    | some idBytes =>
      match toChecksum idBytes with
      | .error e => (.ok (.error e), [])
      | .ok _ =>
        match params.read with
        | none => (.ok (.error (.empty_arg PARAMS_ARG)), [])
        | some _ =>
          match msg.read with
          | none => (.ok (.error (.empty_arg MSG_ARG)), [])
          | some _ => vm_call_tail env gas_limit

/-- `do_handle` from `lib.rs`: same template as `do_init`, invoking
`call_handle_raw`. -/
def do_handle (env : VmEnv) (code_id params msg : Buffer) (gas_limit : Nat)
    (gas_used : Option Unit) : PResult (Except Error (List Nat)) × List Event :=
  match gas_used with
  | none => (.ok (.error (.empty_arg GAS_USED_ARG)), [])
  | some _ =>
    match code_id.read with
    | none => (.ok (.error (.empty_arg CODE_ID_ARG)), [])
    | some idBytes =>
      match toChecksum idBytes with
      | .error e => (.ok (.error e), [])
      | .ok _ =>
        match params.read with
        | none => (.ok (.error (.empty_arg PARAMS_ARG)), [])
        | some _ =>
          match msg.read with
          | none => (.ok (.error (.empty_arg MSG_ARG)), [])
          | some _ => vm_call_tail env gas_limit

/-- `do_migrate` from `lib.rs`: same template as `do_init`, invoking
`call_migrate_raw`. -/
def do_migrate (env : VmEnv) (code_id params msg : Buffer) (gas_limit : Nat)
    (gas_used : Option Unit) : PResult (Except Error (List Nat)) × List Event :=
  match gas_used with
  | none => (.ok (.error (.empty_arg GAS_USED_ARG)), [])
  | some _ =>
    match code_id.read with
    | none => (.ok (.error (.empty_arg CODE_ID_ARG)), [])
    | some idBytes =>
      match toChecksum idBytes with
      | .error e => (.ok (.error e), [])
      | .ok _ =>
        match params.read with
        | none => (.ok (.error (.empty_arg PARAMS_ARG)), [])
        | some _ =>
          match msg.read with
          | none => (.ok (.error (.empty_arg MSG_ARG)), [])
          | some _ => vm_call_tail env gas_limit

/-- `do_query` from `lib.rs`: same template without `params`, invoking
`call_query_raw`. -/
def do_query (env : VmEnv) (code_id msg : Buffer) (gas_limit : Nat)
    (gas_used : Option Unit) : PResult (Except Error (List Nat)) × List Event :=
  match gas_used with
  | none => (.ok (.error (.empty_arg GAS_USED_ARG)), [])
  | some _ =>
    match code_id.read with
    | none => (.ok (.error (.empty_arg CODE_ID_ARG)), [])
    | some idBytes =>
      match toChecksum idBytes with
      | .error e => (.ok (.error e), [])
      | .ok _ =>
        match msg.read with
        | none => (.ok (.error (.empty_arg MSG_ARG)), [])
        | some _ => vm_call_tail env gas_limit

/-- `instantiate` from `lib.rs`: null-check the cache handle, run
`do_init` under the unwind barrier, convert via `handle_c_error`,
return the result buffer. -/
def instantiate (env : VmEnv) (cache : Option Unit)
    (code_id params msg : Buffer) (gas_limit : Nat) (gas_used : Option Unit) :
    PResult ((Buffer × Option String) × List Event) :=
  let rt :=
    match cache with
    | some _ =>
      let (pr, tr) := do_init env code_id params msg gas_limit gas_used
      (catchUnwind pr, tr)
    | none => (.error (.empty_arg CACHE_ARG), [])
  let (data, e) := handle_c_error rt.1
  .ok ((Buffer.from_vec data, e), rt.2)

/-- `handle` from `lib.rs`: null-check the cache handle, run `do_handle`
under the unwind barrier, convert via `handle_c_error`. -/
def handle (env : VmEnv) (cache : Option Unit)
    (code_id params msg : Buffer) (gas_limit : Nat) (gas_used : Option Unit) :
    PResult ((Buffer × Option String) × List Event) :=
  let rt :=
    match cache with
    | some _ =>
      let (pr, tr) := do_handle env code_id params msg gas_limit gas_used
      (catchUnwind pr, tr)
    | none => (.error (.empty_arg CACHE_ARG), [])
  let (data, e) := handle_c_error rt.1
  .ok ((Buffer.from_vec data, e), rt.2)

/-- `migrate` from `lib.rs`: null-check the cache handle, run
`do_migrate` under the unwind barrier, convert via `handle_c_error`. -/
def migrate (env : VmEnv) (cache : Option Unit)
    (code_id params msg : Buffer) (gas_limit : Nat) (gas_used : Option Unit) :
    PResult ((Buffer × Option String) × List Event) :=
  let rt :=
    match cache with
    | some _ =>
      let (pr, tr) := do_migrate env code_id params msg gas_limit gas_used
      (catchUnwind pr, tr)
    | none => (.error (.empty_arg CACHE_ARG), [])
  let (data, e) := handle_c_error rt.1
  .ok ((Buffer.from_vec data, e), rt.2)

/-- `query` from `lib.rs`: null-check the cache handle, run `do_query`
under the unwind barrier, convert via `handle_c_error`. -/
def query (env : VmEnv) (cache : Option Unit)
    (code_id msg : Buffer) (gas_limit : Nat) (gas_used : Option Unit) :
    PResult ((Buffer × Option String) × List Event) :=
  let rt :=
    match cache with
    | some _ =>
      let (pr, tr) := do_query env code_id msg gas_limit gas_used
      (catchUnwind pr, tr)
    | none => (.error (.empty_arg CACHE_ARG), [])
  let (data, e) := handle_c_error rt.1
  .ok ((Buffer.from_vec data, e), rt.2)

/-! ## Enclave entry points (`key_gen`, `get_encrypted_seed`,
`init_bootstrap`, `init_node`, `create_attestation_report`)

In `lib.rs` these call into the enclave (`untrusted_*`,
`create_attestation_report_u`, external collaborators) with **no**
`catch_unwind` barrier: a native panic raised inside the call unwinds
straight through the exported function, which the model renders by
propagating `panicked`. -/

/-- `key_gen` from `lib.rs`. -/
def key_gen (result : PResult (Except String (List Nat))) :
    PResult (Buffer × Option String) :=
  match result with
  | .panicked => .panicked
  | .ok (.error e) => .ok (Buffer.default, some (Error.vm_err e).msg)
  | .ok (.ok r) => .ok (Buffer.from_vec r, none)

/-- `get_encrypted_seed` from `lib.rs`. -/
def get_encrypted_seed (cert : Buffer)
    (result : PResult (Except String (List Nat))) :
    PResult (Buffer × Option String) :=
  match cert.read with
  | none =>
    .ok (Buffer.default, some (Error.vm_err "Attestation Certificate is empty").msg)
  | some _ =>
    match result with
    | .panicked => .panicked
    | .ok (.error e) => .ok (Buffer.default, some (Error.vm_err e).msg)
    | .ok (.ok r) => .ok (Buffer.from_vec r, none)

/-- `init_bootstrap` from `lib.rs`. -/
def init_bootstrap (result : PResult (Except String (List Nat))) :
    PResult (Buffer × Option String) :=
  match result with
  | .panicked => .panicked
  | .ok (.error e) => .ok (Buffer.default, some (Error.vm_err e).msg)
  | .ok (.ok r) => .ok (Buffer.from_vec r, none)

/-- `init_node` from `lib.rs`. -/
def init_node (master_cert encrypted_seed : Buffer)
    (result : PResult (Except String Unit)) : PResult (Bool × Option String) :=
  match master_cert.read with
  | none => .ok (false, some (Error.vm_err "Public key is empty").msg)
  | some _ =>
    match encrypted_seed.read with
    | none => .ok (false, some (Error.vm_err "Encrypted seed is empty").msg)
    | some _ =>
      match result with
      | .panicked => .panicked
      | .ok (.ok _) => .ok (true, none)
      | .ok (.error e) => .ok (false, some (Error.vm_err e).msg)

/-- `create_attestation_report` from `lib.rs`. -/
def create_attestation_report (result : PResult (Except String Unit)) :
    PResult (Bool × Option String) :=
  match result with
  | .panicked => .panicked
  | .ok (.error status) => .ok (false, some (Error.vm_err status).msg)
  | .ok (.ok _) => .ok (true, none)

/-! ## Claims -/

theorem vm_call_tail_returns (env : VmEnv) (gl : Nat)
    (hinst : env.get_instance = .ok (.ok ())) (hcall : env.call ≠ .panics) :
    ∃ r, vm_call_tail env gl =
      (.ok r, [.vm_call, .gas_write (gl - env.gas_left), .recycle]) := by
  cases hc : env.call with
  | panics => exact absurd hc hcall
  | ok data => exact ⟨.ok data, by simp [vm_call_tail, hinst, hc]⟩
  | err m => exact ⟨.error (.vm_err m), by simp [vm_call_tail, hinst, hc]⟩

theorem do_init_valid (env : VmEnv) (idb p m : List Nat) (gl : Nat)
    (hid : idb.length = checksumLen) :
    do_init env (.bytes idb) (.bytes p) (.bytes m) gl (some ()) =
      vm_call_tail env gl := by
  simp [do_init, Buffer.read, toChecksum, hid]

theorem do_handle_valid (env : VmEnv) (idb p m : List Nat) (gl : Nat)
    (hid : idb.length = checksumLen) :
    do_handle env (.bytes idb) (.bytes p) (.bytes m) gl (some ()) =
      vm_call_tail env gl := by
  simp [do_handle, Buffer.read, toChecksum, hid]

theorem do_migrate_valid (env : VmEnv) (idb p m : List Nat) (gl : Nat)
    (hid : idb.length = checksumLen) :
    do_migrate env (.bytes idb) (.bytes p) (.bytes m) gl (some ()) =
      vm_call_tail env gl := by
  simp [do_migrate, Buffer.read, toChecksum, hid]

theorem do_query_valid (env : VmEnv) (idb m : List Nat) (gl : Nat)
    (hid : idb.length = checksumLen) :
    do_query env (.bytes idb) (.bytes m) gl (some ()) = vm_call_tail env gl := by
  simp [do_query, Buffer.read, toChecksum, hid]

/-- Claim C1 counterexample: the claim is false for the enclave entry
points it names — `key_gen`, `get_encrypted_seed`, `init_bootstrap`,
`init_node`, and `create_attestation_report` install no unwind
barrier, so a native panic raised inside their core call unwinds past
the exported entry point instead of being converted into a panic
error. -/
theorem C1_counterexample :
    key_gen PResult.panicked = PResult.panicked ∧
    get_encrypted_seed (Buffer.bytes [1]) PResult.panicked = PResult.panicked ∧
    init_bootstrap PResult.panicked = PResult.panicked ∧
    init_node (Buffer.bytes [1]) (Buffer.bytes [2]) PResult.panicked =
      PResult.panicked ∧
    create_attestation_report PResult.panicked = PResult.panicked :=
  ⟨rfl, rfl, rfl, rfl, rfl⟩

/-- Claim C1 (amended): `init_cache`, `create`, `get_code`,
`instantiate`, `handle`, `migrate`, and `query` wrap their core logic
in `catch_unwind`: every run returns normally (never unwinds), and a
native panic raised in the guarded core — including deep inside a VM
call — surfaces as the generic panic error with a non-empty message
through the error output.  The enclave entry points (`key_gen` and
company) have no such barrier and a panic there unwinds past the
boundary (see the counterexample). -/
theorem C1_amended_panic_containment :
    (∀ env dd sf cs, ∃ v, init_cache env dd sf cs = .ok v) ∧
    (∀ env c w, ∃ v, create env c w = .ok v) ∧
    (∀ env c i, ∃ v, get_code env c i = .ok v) ∧
    (∀ env c ci p m gl gu, ∃ v, instantiate env c ci p m gl gu = .ok v) ∧
    (∀ env c ci p m gl gu, ∃ v, handle env c ci p m gl gu = .ok v) ∧
    (∀ env c ci p m gl gu, ∃ v, migrate env c ci p m gl gu = .ok v) ∧
    (∀ env c ci m gl gu, ∃ v, query env c ci m gl gu = .ok v) ∧
    init_cache ⟨.panicked⟩ (Buffer.bytes [104]) (Buffer.bytes [97]) 10 =
      .ok (none, some Error.panic.msg) ∧
    create ⟨.panicked⟩ (some ()) (Buffer.bytes [0]) =
      .ok (Buffer.from_vec [], some Error.panic.msg) ∧
    get_code ⟨.panicked⟩ (some ()) (Buffer.bytes (List.replicate 32 0)) =
      .ok (Buffer.from_vec [], some Error.panic.msg) ∧
    instantiate ⟨.ok (.ok ()), .panics, 0⟩ (some ())
        (Buffer.bytes (List.replicate 32 0)) (Buffer.bytes []) (Buffer.bytes [])
        10 (some ()) =
      .ok ((Buffer.from_vec [], some Error.panic.msg), [.vm_call]) ∧
    handle ⟨.ok (.ok ()), .panics, 0⟩ (some ())
        (Buffer.bytes (List.replicate 32 0)) (Buffer.bytes []) (Buffer.bytes [])
        10 (some ()) =
      .ok ((Buffer.from_vec [], some Error.panic.msg), [.vm_call]) ∧
    migrate ⟨.ok (.ok ()), .panics, 0⟩ (some ())
        (Buffer.bytes (List.replicate 32 0)) (Buffer.bytes []) (Buffer.bytes [])
        10 (some ()) =
      .ok ((Buffer.from_vec [], some Error.panic.msg), [.vm_call]) ∧
    query ⟨.ok (.ok ()), .panics, 0⟩ (some ())
        (Buffer.bytes (List.replicate 32 0)) (Buffer.bytes []) 10 (some ()) =
      .ok ((Buffer.from_vec [], some Error.panic.msg), [.vm_call]) ∧
    Error.panic.msg ≠ "" := by
  refine ⟨?_, fun env c w => ⟨_, rfl⟩, fun env c i => ⟨_, rfl⟩,
    fun env c ci p m gl gu => ⟨_, rfl⟩, fun env c ci p m gl gu => ⟨_, rfl⟩,
    fun env c ci p m gl gu => ⟨_, rfl⟩, fun env c ci m gl gu => ⟨_, rfl⟩,
    rfl, rfl, rfl, rfl, rfl, rfl, rfl, by decide⟩
  intro env dd sf cs
  unfold init_cache
  cases catchUnwind (do_init_cache env dd sf cs) with
  | ok t => exact ⟨_, rfl⟩
  | error e => exact ⟨_, rfl⟩

/-- Claim C2 counterexample: `gas_used` can be left stale.  First, a
`handle` call with a valid `gas_used` pointer but an absent `msg`
buffer fails before the VM is reached and performs no gas write (empty
event trace).  Second, a `handle` call that does reach the VM
invocation (the trace contains the VM call) but whose VM call panics
writes `gas_used` zero times, not exactly once. -/
theorem C2_counterexample :
    handle ⟨.ok (.ok ()), .ok [], 0⟩ (some ()) (Buffer.bytes (List.replicate 32 0))
        (Buffer.bytes []) Buffer.sentinel 100 (some ()) =
      .ok ((Buffer.from_vec [], some (Error.empty_arg MSG_ARG).msg), []) ∧
    handle ⟨.ok (.ok ()), .panics, 0⟩ (some ()) (Buffer.bytes (List.replicate 32 0))
        (Buffer.bytes []) (Buffer.bytes []) 100 (some ()) =
      .ok ((Buffer.from_vec [], some Error.panic.msg), [Event.vm_call]) :=
  ⟨rfl, rfl⟩

/-- Claim C2 (amended): for every `instantiate`, `handle`, `migrate`,
or `query` call that reaches the VM invocation and whose VM call
returns — with success or with a VM error — `gas_used` is written
exactly once, with value `gas_limit - instance.get_gas_left()`
computed after the VM call, and the write followed by recycling the
instance happens before the VM result is propagated (the full event
trace precedes the return); when the VM call panics instead of
returning, and on paths that fail argument validation or instance
acquisition, `gas_used` is not written and is left stale. -/
theorem C2_amended_gas_report (env : VmEnv) (idb p m : List Nat) (gl : Nat)
    (hid : idb.length = checksumLen)
    (hinst : env.get_instance = .ok (.ok ()))
    (hcall : env.call ≠ .panics) :
    (∃ out, instantiate env (some ()) (Buffer.bytes idb) (Buffer.bytes p)
        (Buffer.bytes m) gl (some ()) =
      .ok (out, [.vm_call, .gas_write (gl - env.gas_left), .recycle])) ∧
    (∃ out, handle env (some ()) (Buffer.bytes idb) (Buffer.bytes p)
        (Buffer.bytes m) gl (some ()) =
      .ok (out, [.vm_call, .gas_write (gl - env.gas_left), .recycle])) ∧
    (∃ out, migrate env (some ()) (Buffer.bytes idb) (Buffer.bytes p)
        (Buffer.bytes m) gl (some ()) =
      .ok (out, [.vm_call, .gas_write (gl - env.gas_left), .recycle])) ∧
    (∃ out, query env (some ()) (Buffer.bytes idb) (Buffer.bytes m) gl (some ()) =
      .ok (out, [.vm_call, .gas_write (gl - env.gas_left), .recycle])) ∧
    (∀ env2 : VmEnv, env2.get_instance = .ok (.ok ()) → env2.call = .panics →
      instantiate env2 (some ()) (Buffer.bytes idb) (Buffer.bytes p)
          (Buffer.bytes m) gl (some ()) =
        .ok ((Buffer.from_vec [], some Error.panic.msg), [.vm_call])) := by
  obtain ⟨r, hr⟩ := vm_call_tail_returns env gl hinst hcall
  refine ⟨⟨(Buffer.from_vec (handle_c_error r).1, (handle_c_error r).2), ?_⟩,
    ⟨(Buffer.from_vec (handle_c_error r).1, (handle_c_error r).2), ?_⟩,
    ⟨(Buffer.from_vec (handle_c_error r).1, (handle_c_error r).2), ?_⟩,
    ⟨(Buffer.from_vec (handle_c_error r).1, (handle_c_error r).2), ?_⟩, ?_⟩
  · simp [instantiate, do_init_valid env idb p m gl hid, hr, catchUnwind]
  · simp [handle, do_handle_valid env idb p m gl hid, hr, catchUnwind]
  · simp [migrate, do_migrate_valid env idb p m gl hid, hr, catchUnwind]
  · simp [query, do_query_valid env idb m gl hid, hr, catchUnwind]
  · intro env2 h1 h2
    simp [instantiate, do_init_valid env2 idb p m gl hid, vm_call_tail, h1, h2,
      catchUnwind, handle_c_error, Buffer.from_vec]

/-- Claim C2 witness: the amended statement at a concrete run — gas
limit 100, remaining gas 40 after the VM call, checksum of length 32 —
reporting a gas write of `100 - 40`. -/
theorem C2_amended_witness :
    (∃ out, instantiate ⟨.ok (.ok ()), .ok [7], 40⟩ (some ())
        (Buffer.bytes (List.replicate 32 1)) (Buffer.bytes []) (Buffer.bytes [])
        100 (some ()) =
      .ok (out, [.vm_call, .gas_write (100 - 40), .recycle])) ∧
    (∃ out, handle ⟨.ok (.ok ()), .ok [7], 40⟩ (some ())
        (Buffer.bytes (List.replicate 32 1)) (Buffer.bytes []) (Buffer.bytes [])
        100 (some ()) =
      .ok (out, [.vm_call, .gas_write (100 - 40), .recycle])) ∧
    (∃ out, migrate ⟨.ok (.ok ()), .ok [7], 40⟩ (some ())
        (Buffer.bytes (List.replicate 32 1)) (Buffer.bytes []) (Buffer.bytes [])
        100 (some ()) =
      .ok (out, [.vm_call, .gas_write (100 - 40), .recycle])) ∧
    (∃ out, query ⟨.ok (.ok ()), .ok [7], 40⟩ (some ())
        (Buffer.bytes (List.replicate 32 1)) (Buffer.bytes []) 100 (some ()) =
      .ok (out, [.vm_call, .gas_write (100 - 40), .recycle])) ∧
    (∀ env2 : VmEnv, env2.get_instance = .ok (.ok ()) → env2.call = .panics →
      instantiate env2 (some ()) (Buffer.bytes (List.replicate 32 1))
          (Buffer.bytes []) (Buffer.bytes []) 100 (some ()) =
        .ok ((Buffer.from_vec [], some Error.panic.msg), [.vm_call])) :=
  C2_amended_gas_report ⟨.ok (.ok ()), .ok [7], 40⟩ (List.replicate 32 1) [] []
    100 (by decide) rfl (by decide)

/-- Claim C3: for every entry point that takes the cache handle
(`create`, `get_code`, `instantiate`, `handle`, `migrate`, `query`), a
null handle yields a failure — empty primary return, the named
"empty cache argument" error written to the error output — with no
native panic; the handle is never dereferenced and no other work is
done (the output is a constant, independent of the oracle environment
and of every other argument). -/
theorem C3_null_cache_handle :
    (∀ env wasm, create env none wasm =
      .ok (Buffer.from_vec [], some (Error.empty_arg CACHE_ARG).msg)) ∧
    (∀ env id, get_code env none id =
      .ok (Buffer.from_vec [], some (Error.empty_arg CACHE_ARG).msg)) ∧
    (∀ env ci p m gl gu, instantiate env none ci p m gl gu =
      .ok ((Buffer.from_vec [], some (Error.empty_arg CACHE_ARG).msg), [])) ∧
    (∀ env ci p m gl gu, handle env none ci p m gl gu =
      .ok ((Buffer.from_vec [], some (Error.empty_arg CACHE_ARG).msg), [])) ∧
    (∀ env ci p m gl gu, migrate env none ci p m gl gu =
      .ok ((Buffer.from_vec [], some (Error.empty_arg CACHE_ARG).msg), [])) ∧
    (∀ env ci m gl gu, query env none ci m gl gu =
      .ok ((Buffer.from_vec [], some (Error.empty_arg CACHE_ARG).msg), [])) ∧
    (Error.empty_arg CACHE_ARG).msg = "empty cache argument" :=
  ⟨fun _ _ => rfl, fun _ _ => rfl, fun _ _ _ _ _ _ => rfl, fun _ _ _ _ _ _ => rfl,
   fun _ _ _ _ _ _ => rfl, fun _ _ _ _ _ => rfl, rfl⟩

/-- Claim C6: a run of `N` callback steps that each succeed with a
present key and a present value, followed by a succeeding step whose
key buffer is absent, makes the iterator adapter yield exactly the `N`
`(key, value)` pairs — each carrying that step's own gas-used delta —
and then the natural end of sequence (`none`), with no error. -/
theorem C6_iterator_n_pairs_then_end (steps : List (List Nat × List Nat × Nat)) :
    GoIter.pulls ⟨some (stepsFun steps)⟩ (steps.length + 1) =
      steps.map (fun s => some (.ok ((s.1, s.2.1), s.2.2))) ++ [none] := by
  induction steps with
  | nil =>
    rw [List.length_nil, GoIter.pulls,
      GoIter.next_end (stepsFun []) Buffer.sentinel 0 rfl]
    rfl
  | cons x rest ih =>
    obtain ⟨k, v, g⟩ := x
    rw [List.length_cons, GoIter.pulls,
      GoIter.next_good (stepsFun ((k, v, g) :: rest)) k v g rfl]
    simp only [List.map_cons, List.cons_append]
    rw [stepsFun_shift ⟨k, v, g⟩ rest]
    exact congrArg _ ih

/-- Claim C7 counterexample: when a step succeeds with a present key
but an absent value buffer, `next()` does yield a distinct terminal
error, but its message is "Failed to read value while reading the next
key in the db" (`iterator.rs` line 76), not the message "failed to
read value for next key" quoted by the claim. -/
theorem C7_counterexample :
    (GoIter.next ⟨some fun _ => ⟨0, Buffer.bytes [1], Buffer.sentinel, 5⟩⟩).1 =
      some (.error (FfiError.other
        "Failed to read value while reading the next key in the db")) ∧
    "Failed to read value while reading the next key in the db" ≠
      "failed to read value for next key" :=
  ⟨rfl, by decide⟩

/-- Claim C7 (amended): if a step's callback succeeds (return code 0)
and the key buffer is present but the value buffer is absent, `next()`
yields the distinct error "Failed to read value while reading the next
key in the db" — it returns (no panic, no infinite loop) and does not
fabricate an empty value. -/
theorem C7_amended_value_missing (f : Nat → StepReply) (k : List Nat) (g : Nat)
    (h : f 0 = ⟨0, Buffer.bytes k, Buffer.sentinel, g⟩) :
    GoIter.next ⟨some f⟩ =
      (some (.error (FfiError.other
        "Failed to read value while reading the next key in the db")),
       ⟨some fun i => f (i + 1)⟩) := by
  simp [GoIter.next, h, Buffer.read]

/-- Claim C7 witness: the amended statement at a concrete reply. -/
theorem C7_amended_witness :
    GoIter.next ⟨some fun _ => ⟨0, Buffer.bytes [1], Buffer.sentinel, 5⟩⟩ =
      (some (.error (FfiError.other
        "Failed to read value while reading the next key in the db")),
       ⟨some fun _ => ⟨0, Buffer.bytes [1], Buffer.sentinel, 5⟩⟩) :=
  C7_amended_value_missing (fun _ => ⟨0, Buffer.bytes [1], Buffer.sentinel, 5⟩) [1] 5 rfl

/-- Claim C8 counterexample: a bound callback returning a failure code
does yield a terminal error, but the fixed context message set on it is
"Failed to fetch next item from iterator" (`iterator.rs` line 61), not
the string "failed to fetch next item from iterator" quoted by the
claim. -/
theorem C8_counterexample :
    (GoIter.next ⟨some fun _ => ⟨1, Buffer.sentinel, Buffer.sentinel, 0⟩⟩).1 =
      some (.error (FfiError.go_error "Failed to fetch next item from iterator")) ∧
    "Failed to fetch next item from iterator" ≠
      "failed to fetch next item from iterator" :=
  ⟨rfl, by decide⟩

/-- Claim C8 (amended): constructing the adapter with no `next_db`
bound never fails and invokes no callback (the default value simply has
an unbound vtable); the first `next()` on it yields the
"iterator vtable not set" error rather than a crash; and when the
callback is bound but returns a nonzero failure code, `next()` yields
that step as a terminal error annotated with the fixed context message
"Failed to fetch next item from iterator". -/
theorem C8_amended_vtable_and_failure :
    GoIter.default = ⟨none⟩ ∧
    GoIter.next GoIter.default =
      (some (.error (FfiError.other "iterator vtable not set")), GoIter.default) ∧
    (∀ f : Nat → StepReply, (f 0).code ≠ 0 →
      GoIter.next ⟨some f⟩ =
        (some (.error (FfiError.go_error "Failed to fetch next item from iterator")),
         ⟨some fun i => f (i + 1)⟩)) := by
  refine ⟨rfl, rfl, fun f hf => ?_⟩
  simp [GoIter.next, hf]

/-- Claim C8 witness: the amended statement's failure-code part at a
concrete reply with return code 1. -/
theorem C8_amended_witness :
    GoIter.next ⟨some fun _ => ⟨1, Buffer.sentinel, Buffer.sentinel, 0⟩⟩ =
      (some (.error (FfiError.go_error "Failed to fetch next item from iterator")),
       ⟨some fun _ => ⟨1, Buffer.sentinel, Buffer.sentinel, 0⟩⟩) :=
  C8_amended_vtable_and_failure.2.2 (fun _ => ⟨1, Buffer.sentinel, Buffer.sentinel, 0⟩)
    (by decide)

/-- Claim C4 (code-bug evaluation): the named-argument template holds
for `create` (`wasm`) and for `instantiate` (`code_id`, `params`,
`msg`), and a checksum buffer of the wrong byte length is a reportable
error in both `instantiate` and `get_code`; but `do_get_code`
(`lib.rs` line 238) reports `CACHE_ARG` — "empty cache argument" — for
an absent `id` buffer instead of naming that argument, diverging from
the per-argument naming used everywhere else. -/
theorem C4_named_errors_and_get_code_slip :
    (∀ env, create env (some ()) Buffer.sentinel =
      .ok (Buffer.from_vec [], some (Error.empty_arg WASM_ARG).msg)) ∧
    (∀ env p m gl, instantiate env (some ()) Buffer.sentinel p m gl (some ()) =
      .ok ((Buffer.from_vec [], some (Error.empty_arg CODE_ID_ARG).msg), [])) ∧
    (∀ env m gl, instantiate env (some ()) (Buffer.bytes (List.replicate 32 0))
        Buffer.sentinel m gl (some ()) =
      .ok ((Buffer.from_vec [], some (Error.empty_arg PARAMS_ARG).msg), [])) ∧
    (∀ env p gl, instantiate env (some ()) (Buffer.bytes (List.replicate 32 0))
        (Buffer.bytes p) Buffer.sentinel gl (some ()) =
      .ok ((Buffer.from_vec [], some (Error.empty_arg MSG_ARG).msg), [])) ∧
    (∀ env p m gl, instantiate env (some ()) (Buffer.bytes [1, 2, 3]) p m gl (some ()) =
      .ok ((Buffer.from_vec [], some (Error.invalid_checksum 3).msg), [])) ∧
    (∀ env, get_code env (some ()) (Buffer.bytes [1, 2, 3]) =
      .ok (Buffer.from_vec [], some (Error.invalid_checksum 3).msg)) ∧
    (∀ env, get_code env (some ()) Buffer.sentinel =
      .ok (Buffer.from_vec [], some (Error.empty_arg CACHE_ARG).msg)) ∧
    (Error.empty_arg CACHE_ARG).msg = "empty cache argument" ∧
    CACHE_ARG ≠ CODE_ID_ARG :=
  ⟨fun _ => rfl, fun _ _ _ _ => rfl, fun _ _ _ => rfl, fun _ _ _ => rfl,
   fun _ _ _ _ => rfl, fun _ => rfl, fun _ => rfl, rfl, by decide⟩

/-- Claim C5: `init_cache` validates that `data_dir` and
`supported_features` are present and valid UTF-8, in that order,
before constructing the cache (the first four cases hold for every
construction oracle, including a panicking one, so the cache is not
touched): an absent buffer yields null plus its named-argument error,
an invalid encoding yields null plus the distinct UTF-8 error, and on
success the call returns a non-null opaque handle with the error
output cleared. -/
theorem C5_init_cache_validation :
    (∀ env sf cs, init_cache env Buffer.sentinel sf cs =
      .ok (none, some (Error.empty_arg DATA_DIR_ARG).msg)) ∧
    (∀ env dir cs, validUtf8 dir = true →
      init_cache env (Buffer.bytes dir) Buffer.sentinel cs =
        .ok (none, some (Error.empty_arg FEATURES_ARG).msg)) ∧
    (∀ env dir sf cs, validUtf8 dir = false →
      init_cache env (Buffer.bytes dir) sf cs =
        .ok (none, some Error.utf8_err.msg)) ∧
    (∀ env dir feats cs, validUtf8 dir = true → validUtf8 feats = false →
      init_cache env (Buffer.bytes dir) (Buffer.bytes feats) cs =
        .ok (none, some Error.utf8_err.msg)) ∧
    (∀ dir feats cs, validUtf8 dir = true → validUtf8 feats = true →
      init_cache ⟨.ok (.ok ())⟩ (Buffer.bytes dir) (Buffer.bytes feats) cs =
        .ok (some (), none)) := by
  refine ⟨fun env sf cs => rfl, ?_, ?_, ?_, ?_⟩
  · intro env dir cs h
    simp [init_cache, do_init_cache, catchUnwind, Buffer.read, h]
  · intro env dir sf cs h
    simp [init_cache, do_init_cache, catchUnwind, Buffer.read, h]
  · intro env dir feats cs h1 h2
    simp [init_cache, do_init_cache, catchUnwind, Buffer.read, h1, h2]
  · intro dir feats cs h1 h2
    simp [init_cache, do_init_cache, catchUnwind, Buffer.read, h1, h2]

/-- Claim C5 witness: the validation cases at concrete inputs —
byte `104` (`h`) is valid UTF-8, byte `255` is not. -/
theorem C5_witness :
    init_cache ⟨.panicked⟩ Buffer.sentinel Buffer.sentinel 10 =
      .ok (none, some (Error.empty_arg DATA_DIR_ARG).msg) ∧
    init_cache ⟨.panicked⟩ (Buffer.bytes [104]) Buffer.sentinel 10 =
      .ok (none, some (Error.empty_arg FEATURES_ARG).msg) ∧
    init_cache ⟨.panicked⟩ (Buffer.bytes [255]) Buffer.sentinel 10 =
      .ok (none, some Error.utf8_err.msg) ∧
    init_cache ⟨.panicked⟩ (Buffer.bytes [104]) (Buffer.bytes [255]) 10 =
      .ok (none, some Error.utf8_err.msg) ∧
    init_cache ⟨.ok (.ok ())⟩ (Buffer.bytes [104]) (Buffer.bytes [97]) 10 =
      .ok (some (), none) :=
  ⟨C5_init_cache_validation.1 ⟨.panicked⟩ Buffer.sentinel 10,
   C5_init_cache_validation.2.1 ⟨.panicked⟩ [104] 10 (by decide),
   C5_init_cache_validation.2.2.1 ⟨.panicked⟩ [255] Buffer.sentinel 10 (by decide),
   C5_init_cache_validation.2.2.2.1 ⟨.panicked⟩ [104] [255] 10 (by decide) (by decide),
   C5_init_cache_validation.2.2.2.2 [104] [97] 10 (by decide) (by decide)⟩

/-- Claim C10 counterexample: the `gas_used` null check is not ahead of
all other argument validation — the cache-handle null check in the
outer entry point precedes it, so a call with both the handle and
`gas_used` null fails with "empty cache argument", not
"empty gas_used argument". -/
theorem C10_counterexample :
    instantiate ⟨.ok (.ok ()), .ok [], 0⟩ none Buffer.sentinel Buffer.sentinel
        Buffer.sentinel 0 none =
      .ok ((Buffer.from_vec [], some (Error.empty_arg CACHE_ARG).msg), []) ∧
    (Error.empty_arg CACHE_ARG).msg ≠ (Error.empty_arg GAS_USED_ARG).msg :=
  ⟨rfl, by decide⟩

/-- Claim C10 (amended): for `instantiate`, `handle`, `migrate`, and
`query` with a non-null cache handle, a null `gas_used` output makes
the call fail with the named "empty gas_used argument" error before
the checksum is decoded, before any instance is acquired, and before
any VM work (the output is independent of the oracle environment and
of every buffer argument, and the event trace is empty); this check is
first among the validations in the call body — only the cache-handle
null check of the outer wrapper precedes it. -/
theorem C10_amended_gas_used_first :
    (∀ env ci p m gl, instantiate env (some ()) ci p m gl none =
      .ok ((Buffer.from_vec [], some (Error.empty_arg GAS_USED_ARG).msg), [])) ∧
    (∀ env ci p m gl, handle env (some ()) ci p m gl none =
      .ok ((Buffer.from_vec [], some (Error.empty_arg GAS_USED_ARG).msg), [])) ∧
    (∀ env ci p m gl, migrate env (some ()) ci p m gl none =
      .ok ((Buffer.from_vec [], some (Error.empty_arg GAS_USED_ARG).msg), [])) ∧
    (∀ env ci m gl, query env (some ()) ci m gl none =
      .ok ((Buffer.from_vec [], some (Error.empty_arg GAS_USED_ARG).msg), [])) :=
  ⟨fun _ _ _ _ _ => rfl, fun _ _ _ _ _ => rfl, fun _ _ _ _ _ => rfl,
   fun _ _ _ _ => rfl⟩

/-- Claim C9: `release_cache` on a null handle performs no deallocation
and returns normally; on a non-null handle it deallocates the
underlying cache exactly once (destructor invocation count 1). -/
theorem C9_release_cache :
    release_cache none = 0 ∧ release_cache (some ()) = 1 :=
  ⟨rfl, rfl⟩

end GoCosmwasm
